import Mathlib

/-!
Verification development for the `zcl/ros` repository excerpt.

The definitions below are shallow embeddings of the C++ sources:

* `src/tools/rosrecord/src/rosplay/rosplay.cpp` (the bag player and its
  check mode),
* `src/tools/rosdep/os.cpp` (OS detection),
* `src/test/test_roscpp/src/service_call_expect_b.cpp` (service-call test
  fixture),
* `src/core/roscpp/include/ros/node_handle.h` (`NodeHandle::param`).

External collaborators (the terminal, the parameter server, the service
transport, the filesystem, the recorded-bag reader) are modelled as
explicit oracle arguments, so every definition stays executable.
-/

/-! ### Check mode: `checkFile` aggregation (rosplay.cpp lines 304-331, 369-395)

An envelope as handed to a rosplay message handler: the topic name, the
message's declared data type and MD5 hash (`m->__getDataType()`,
`m->__getMD5Sum()`), and the play time passed as `time_play`
(in nanoseconds, as `time_play.toNSec()` stores it into `g_end_time`). -/
structure Envelope where
  topic : String
  datatype : String
  md5sum : String
  timePlayNs : Nat
  deriving DecidableEq

/-- Per-topic aggregate built by `checkFile`: the `BagContent` struct of
rosplay.cpp lines 304-310 (datatype, md5sum, count; count starts at 1). -/
structure BagContent where
  datatype : String
  md5sum : String
  count : Nat
  deriving DecidableEq

/-- Lookup in the `g_content` map (`std::map<string, BagContent>::find`),
modelled on an association list. -/
def bagLookup : List (String × BagContent) → String → Option BagContent
  | [], _ => none
  | (k, bc) :: rest, t => if k = t then some bc else bagLookup rest t

/-- The `i->second.count++` branch of `checkFile`: increment the count of
the entry whose key matches. -/
def bagBump : List (String × BagContent) → String → List (String × BagContent)
  | [], _ => []
  | (k, bc) :: rest, t =>
    if k = t then (k, { bc with count := bc.count + 1 }) :: rest
    else (k, bc) :: bagBump rest t

/-- One `checkFile` call on the `g_content` map (rosplay.cpp lines 321-327):
insert a fresh `BagContent(datatype, md5sum)` when the topic is new,
otherwise increment its count. -/
def bagInsertOrBump (l : List (String × BagContent)) (e : Envelope) :
    List (String × BagContent) :=
  match bagLookup l e.topic with
  | none => l ++ [(e.topic, ⟨e.datatype, e.md5sum, 1⟩)]
  | some _ => bagBump l e.topic

/-- One `checkFile` call on the full global state `(g_content, g_end_time)`:
lines 321-329 update the map and unconditionally set
`g_end_time = time_play.toNSec()`. -/
def checkFileStep (st : List (String × BagContent) × Nat) (e : Envelope) :
    List (String × BagContent) × Nat :=
  (bagInsertOrBump st.1 e, e.timePlayNs)

/-- The whole check-mode scan `while (player.nextMsg())`, which invokes
`checkFile` on each envelope in order, starting from the empty map and the
zero-initialised global `g_end_time`. -/
def scanBag (envs : List Envelope) : List (String × BagContent) × Nat :=
  List.foldl checkFileStep ([], 0) envs

/-- The report printed at rosplay.cpp lines 380-394: the per-topic map and
the three times, in nanoseconds. -/
structure CheckReport where
  content : List (String × BagContent)
  startTimeNs : Nat
  endTimeNs : Nat
  lengthNs : Nat
  deriving DecidableEq

/-- Check-mode outcome for one bag (rosplay.cpp lines 369-394): when
`player.open` succeeded the `checkFile` handler was installed and the scan
ran; when it failed no handler was installed, so the globals keep their
initial values.  Either way the report is printed with
`start_time = getFirstDuration`, `end_time = g_end_time + getFirstDuration`
and `length = g_end_time`. -/
def runCheck (opened : Bool) (firstDurNs : Nat) (envs : List Envelope) :
    CheckReport :=
  let st := if opened then scanBag envs else ([], 0)
  ⟨st.1, firstDurNs, st.2 + firstDurNs, st.2⟩

/-- Number of envelopes in the scan bearing a given topic. -/
def countTopic (t : String) (envs : List Envelope) : Nat :=
  (envs.filter (fun e => e.topic == t)).length

/-! ### A model of glibc `getopt`

rosplay parses its options with `getopt(argc, argv, optstring)`.  The
model processes the argument vector (without `argv[0]`) into the sequence
of option characters getopt would return, each paired with its consumed
argument, plus the list of remaining operands (glibc permutes, so operands
interleaved with options still end up as operands).  An unrecognised
option character, or an option with a missing argument, yields `'?'`,
exactly as getopt does for an optstring without a leading colon. -/

/-- Does an option character take an argument?  `some true` means it is in
the optstring followed by a colon, `some false` means it is in the
optstring bare, `none` means it is not in the optstring. -/
def optLookup (spec : List (Char × Bool)) (c : Char) : Option Bool :=
  (spec.find? (fun p => p.1 == c)).map Prod.snd

/-- Scan one clustered option element (the characters after the leading
dash).  Returns the option characters yielded inside the cluster and, when
the final character wants an argument that the cluster does not supply,
that pending character (getopt then takes the next argv element as its
argument). -/
def clusterScan (spec : List (Char × Bool)) :
    List Char → List (Char × Option String) × Option Char
  | [] => ([], none)
  | c :: cs =>
    match optLookup spec c with
    | none =>
      let r := clusterScan spec cs
      (('?', none) :: r.1, r.2)
    | some false =>
      let r := clusterScan spec cs
      ((c, none) :: r.1, r.2)
    | some true =>
      if cs.isEmpty then ([], some c)
      else ([(c, some (String.mk cs))], none)

/-- Whether an argv element is an option element: it starts with a dash
and has at least one more character. -/
def isOptionElem (s : String) : Bool :=
  match s.toList with
  | '-' :: _ :: _ => true
  | _ => false

/-- Run getopt over an argument list (without `argv[0]`): the returned
option characters in order with their arguments, and the operands.  A lone
`--` stops option parsing; a pending option at the very end with no
argument left yields `'?'`. -/
def getoptArgs (spec : List (Char × Bool)) :
    List String → List (Char × Option String) × List String
  | [] => ([], [])
  | s :: rest =>
    if s = "--" then ([], rest)
    else if isOptionElem s then
      match clusterScan spec (s.toList.drop 1) with
      | (items, none) =>
        let r := getoptArgs spec rest
        (items ++ r.1, r.2)
      | (items, some c) =>
        match rest with
        | [] => (items ++ [('?', none)], [])
        | a :: rest2 =>
          let r := getoptArgs spec rest2
          (items ++ [(c, some a)] ++ r.1, r.2)
    else
      let r := getoptArgs spec rest
      (r.1, s :: r.2)

/-! ### The RosPlay constructor (rosplay.cpp lines 67-150)

The constructor parses the player options with optstring
`"ncahpb:r:s:t:q:"`, then validates the bag list.  The model records the
flags it sets, the diagnostics it prints, whether it shut the node down,
which bags it handed to `player_.open`, and how many messages it
published (the constructor never publishes). -/

/-- The optstring `"ncahpb:r:s:t:q:"` of the RosPlay constructor. -/
def playOptSpec : List (Char × Bool) :=
  [('n', false), ('c', false), ('a', false), ('h', false), ('p', false),
   ('b', true), ('r', true), ('s', true), ('t', true), ('q', true)]

/-- The member state the constructor option loop builds up, plus the two
early-exit markers.  Numeric options keep the raw `optarg` strings; their
`atoi`/`atof` conversions live in libc and never influence control flow in
the constructor. -/
structure PlayOpts where
  quiet : Bool
  atOnce : Bool
  startPaused : Bool
  bagTime : Bool
  shutdownCalled : Bool
  advertiseSleepArg : Option String
  startOffsetArg : Option String
  queueSizeArg : Option String
  bagTimeFreqArg : Option String
  timeScaleArg : Option String
  helpPrinted : Bool
  usagePrinted : Bool
  deriving DecidableEq

/-- The flag state on entry to the option loop (rosplay.cpp lines 67-80). -/
def initPlayOpts : PlayOpts :=
  ⟨false, false, false, false, false, none, none, none, none, none, false, false⟩

/-- One iteration of the constructor option switch (rosplay.cpp lines
94-108).  The second component is true when the case returns from the
constructor (`'h'` and `'?'`); the stray `'c'` case calls `shutdown()` but
falls through to the next iteration. -/
def applyPlayOpt (st : PlayOpts) (it : Char × Option String) : PlayOpts × Bool :=
  match it.1 with
  | 'c' => ({ st with shutdownCalled := true }, false)
  | 'n' => ({ st with quiet := true }, false)
  | 'a' => ({ st with atOnce := true }, false)
  | 'p' => ({ st with startPaused := true }, false)
  | 's' => ({ st with advertiseSleepArg := it.2 }, false)
  | 't' => ({ st with startOffsetArg := it.2 }, false)
  | 'q' => ({ st with queueSizeArg := it.2 }, false)
  | 'b' => ({ st with bagTimeFreqArg := it.2, bagTime := true }, false)
  | 'r' => ({ st with timeScaleArg := it.2 }, false)
  | 'h' => ({ st with helpPrinted := true, shutdownCalled := true }, true)
  | _ => ({ st with usagePrinted := true, shutdownCalled := true }, true)

/-- Run the constructor option loop over the getopt results, stopping at
the first early-exit case. -/
def processPlayOpts : List (Char × Option String) → PlayOpts → PlayOpts × Bool
  | [], st => (st, false)
  | it :: rest, st =>
    let r := applyPlayOpt st it
    if r.2 then (r.1, true) else processPlayOpts rest r.1

/-- Observable outcome of running the RosPlay constructor. -/
structure CtorResult where
  opts : PlayOpts
  errorMsg : Option String
  openedBags : List String
  published : Nat
  nodeShutdown : Bool
  deriving DecidableEq

/-- The RosPlay constructor on the argument list after `argv[0]`
(rosplay.cpp lines 67-150): parse options; if the loop returned early the
node was shut down and nothing was opened; with no operands print the
missing-bagfile error and shut down; with bag time enabled and more than
one bag print the single-bag error and shut down; otherwise hand the bag
list to `player_.open`.  The constructor publishes no messages on any
path. -/
def RosPlay.ctor (args : List String) : CtorResult :=
  let r := getoptArgs playOptSpec args
  let p := processPlayOpts r.1 initPlayOpts
  if p.2 then ⟨p.1, none, [], 0, true⟩
  else if r.2.isEmpty then
    ⟨p.1, some "You must specify at least one bagfile to play from.", [], 0, true⟩
  else if p.1.bagTime ∧ 1 < r.2.length then
    ⟨p.1, some "You can only play one single bag when using bag time [-b].", [], 0, true⟩
  else ⟨p.1, none, r.2, 0, p.1.shutdownCalled⟩

/-! ### `main` (rosplay.cpp lines 335-409)

`main` first scans the whole argv for an element equal to `"-c"`; if found
it runs check mode with optstring `"cahpt:q:"` and never constructs a
node.  Otherwise it creates the node, runs the RosPlay constructor and
`spin`, and returns 0 unconditionally. -/

/-- The check-mode optstring `"cahpt:q:"`. -/
def checkOptSpec : List (Char × Bool) :=
  [('c', false), ('a', false), ('h', false), ('p', false),
   ('t', true), ('q', true)]

/-- First terminating case of the check-mode option switch (rosplay.cpp
lines 351-361): `'a'`, `'p'`, `'t'`, `'q'` print an incompatible-option
error and return 1; `'h'` and `'?'` print help or usage and return 0;
`'c'` falls through.  The result pairs the exit code with whether a
diagnostic error (as opposed to help or usage) was printed. -/
def firstCheckAction : List (Char × Option String) → Option (Nat × Bool)
  | [] => none
  | (c, _) :: rest =>
    if c = 'a' ∨ c = 'p' ∨ c = 't' ∨ c = 'q' then some (1, true)
    else if c = 'h' ∨ c = '?' then some (0, false)
    else firstCheckAction rest

/-- What a rosplay process run amounts to: either the check-mode path
(which creates no node and publishes nothing) with its exit code, whether
an error was printed, and the report it printed, or the playback path,
which constructs the node and always makes the process exit 0. -/
inductive MainOutcome where
  | check (exitCode : Nat) (errorPrinted : Bool) (report : Option CheckReport)
  | play (ctor : CtorResult)
  deriving DecidableEq

/-- The process exit code of an outcome: the check path returns its code
from `main`; the playback path falls through to `return 0` at line 408
whatever the constructor or `spin` did. -/
def exitCodeOf : MainOutcome → Nat
  | .check code _ _ => code
  | .play _ => 0

/-- Whether a `ros::Node` was constructed: never on the check path (it
returns before `ros::init`), always on the playback path (line 400). -/
def nodeCreatedOf : MainOutcome → Bool
  | .check _ _ _ => false
  | .play _ => true

/-- The rosplay `main` function over the full argv (including `argv[0]`).
The oracles describe the bag files: whether `player.open` succeeds on a
name, the envelopes a scan of that bag yields, and the bag's
`getFirstDuration` in nanoseconds.  With zero operands in check mode the
source indexes `argv[argc]` (NULL) and its behaviour is undefined; the
model returns the exit-0 outcome without a report for that case. -/
def rosplayMain (argv : List String) (openable : String → Bool)
    (bagEnvs : String → List Envelope) (firstDurNs : String → Nat) :
    MainOutcome :=
  if argv.any (fun s => s == "-c") then
    let r := getoptArgs checkOptSpec (argv.drop 1)
    match firstCheckAction r.1 with
    | some (code, err) => .check code err none
    | none =>
      if 1 < r.2.length then .check 1 true none
      else
        match r.2.head? with
        | none => .check 0 false none
        | some bag =>
          .check 0 false
            (some (runCheck (openable bag) (firstDurNs bag) (bagEnvs bag)))
  else
    .play (RosPlay.ctor (argv.drop 1))

/-! ### Exit-code theorems (claims C1, C3) -/

/-- The check-mode option switch terminates in one of three ways: it
consumes every option, or it stops at an incompatible option with exit
code 1, or it stops at help or usage with exit code 0. -/
lemma firstCheckAction_cases (l : List (Char × Option String)) :
    firstCheckAction l = none ∨ firstCheckAction l = some (1, true) ∨
      firstCheckAction l = some (0, false) := by
  induction l with
  | nil => simp [firstCheckAction]
  | cons it rest ih =>
    obtain ⟨c, a⟩ := it
    simp only [firstCheckAction]
    split
    · exact Or.inr (Or.inl rfl)
    · split
      · exact Or.inr (Or.inr rfl)
      · exact ih

/-- C1 (amended): the rosplay process exit code is always 0 or 1, and it
is 1 exactly when the invocation is in check mode and either the first
terminating option-switch case is an incompatible option (`-a`, `-p`,
`-t`, `-q`), or option parsing completes and more than one bag operand
remains.  In particular the exit code never depends on whether the bag
opens: a check-mode bag that fails to open still exits 0. -/
theorem rosplay_exit_codes (argv : List String) (openable : String → Bool)
    (bagEnvs : String → List Envelope) (firstDurNs : String → Nat) :
    (exitCodeOf (rosplayMain argv openable bagEnvs firstDurNs) = 0 ∨
     exitCodeOf (rosplayMain argv openable bagEnvs firstDurNs) = 1) ∧
    (exitCodeOf (rosplayMain argv openable bagEnvs firstDurNs) = 1 ↔
      argv.any (fun s => s == "-c") = true ∧
        (firstCheckAction (getoptArgs checkOptSpec argv.tail).1 = some (1, true) ∨
         (firstCheckAction (getoptArgs checkOptSpec argv.tail).1 = none ∧
          1 < (getoptArgs checkOptSpec argv.tail).2.length))) := by
  by_cases hc : argv.any (fun s => s == "-c") = true
  · rcases firstCheckAction_cases (getoptArgs checkOptSpec argv.tail).1 with h | h | h
    · by_cases hlen : 1 < (getoptArgs checkOptSpec argv.tail).2.length
      · simp [rosplayMain, hc, h, hlen, exitCodeOf]
      · cases hh : (getoptArgs checkOptSpec argv.tail).2.head? <;>
          simp [rosplayMain, hc, h, hlen, hh, exitCodeOf]
    · simp [rosplayMain, hc, h, exitCodeOf]
    · simp [rosplayMain, hc, h, exitCodeOf]
  · have hc2 : argv.any (fun s => s == "-c") = false := Bool.eq_false_iff.mpr hc
    simp [rosplayMain, hc2, exitCodeOf]

/-- C1 (counterexample): in check mode on a bag that cannot be opened
(the openable oracle refuses every name), the process exit code is 0, not
1 as the claim states. -/
theorem rosplay_check_open_fail_exit_zero :
    exitCodeOf (rosplayMain ["rosplay", "-c", "missing.bag"]
        (fun _ => false) (fun _ => []) (fun _ => 0)) = 0 ∧
    exitCodeOf (rosplayMain ["rosplay", "-c", "missing.bag"]
        (fun _ => false) (fun _ => []) (fun _ => 0)) ≠ 1 := by
  constructor
  · decide
  · decide

/-- C3 (amended): a check-mode invocation whose first terminating
option-switch case is an incompatible option (`-a`, `-p`, `-t`, `-q`), or
whose option parsing completes with more than one bag operand, prints a
descriptive error and exits with code 1, with no node created (and hence
no message published: the check path contains no publish call). -/
theorem rosplay_check_incompat_rejected (argv : List String)
    (openable : String → Bool) (bagEnvs : String → List Envelope)
    (firstDurNs : String → Nat)
    (hc : argv.any (fun s => s == "-c") = true)
    (h : firstCheckAction (getoptArgs checkOptSpec argv.tail).1 = some (1, true) ∨
         (firstCheckAction (getoptArgs checkOptSpec argv.tail).1 = none ∧
          1 < (getoptArgs checkOptSpec argv.tail).2.length)) :
    rosplayMain argv openable bagEnvs firstDurNs = .check 1 true none ∧
    nodeCreatedOf (rosplayMain argv openable bagEnvs firstDurNs) = false ∧
    exitCodeOf (rosplayMain argv openable bagEnvs firstDurNs) = 1 := by
  rcases h with h | ⟨h, hlen⟩
  · simp [rosplayMain, hc, h, nodeCreatedOf, exitCodeOf]
  · simp [rosplayMain, hc, h, hlen, nodeCreatedOf, exitCodeOf]

/-- C3 (witness): `rosplay -c -a x.bag` is rejected with exit code 1, no
node, and a printed error. -/
theorem rosplay_check_incompat_witness :
    rosplayMain ["rosplay", "-c", "-a", "x.bag"]
        (fun _ => true) (fun _ => []) (fun _ => 0) = .check 1 true none :=
  (rosplay_check_incompat_rejected ["rosplay", "-c", "-a", "x.bag"]
    (fun _ => true) (fun _ => []) (fun _ => 0) (by decide)
    (Or.inl (by decide))).1

/-- C3 (counterexample): an invocation that supplies `-c` together with
`-a` but with `-h` first exits with code 0 (help is printed), not 1 as
the claim requires for every invocation supplying `-a`. -/
theorem rosplay_check_help_shadows_incompat :
    exitCodeOf (rosplayMain ["rosplay", "-c", "-h", "-a", "x.bag"]
        (fun _ => true) (fun _ => []) (fun _ => 0)) ≠ 1 := by
  decide

/-! ### Check-mode aggregation theorems (claim C2) -/

/-- Lookup distributes over append: the left list wins. -/
lemma bagLookup_append (l1 l2 : List (String × BagContent)) (t : String) :
    bagLookup (l1 ++ l2) t =
      match bagLookup l1 t with
      | some bc => some bc
      | none => bagLookup l2 t := by
  induction l1 with
  | nil => simp [bagLookup]
  | cons kv rest ih =>
    obtain ⟨k, bc⟩ := kv
    by_cases h : k = t <;> simp [bagLookup, h, ih]

/-- Bumping a key increments exactly that key's count. -/
lemma bagLookup_bump_self (l : List (String × BagContent)) (t : String) :
    bagLookup (bagBump l t) t =
      (bagLookup l t).map (fun bc => ⟨bc.datatype, bc.md5sum, bc.count + 1⟩) := by
  induction l with
  | nil => simp [bagBump, bagLookup]
  | cons kv rest ih =>
    obtain ⟨k, bc⟩ := kv
    by_cases h : k = t <;> simp [bagBump, bagLookup, h, ih]

/-- Bumping one key leaves every other key's entry unchanged. -/
lemma bagLookup_bump_other (l : List (String × BagContent)) (s t : String)
    (h : t ≠ s) : bagLookup (bagBump l s) t = bagLookup l t := by
  induction l with
  | nil => rfl
  | cons kv rest ih =>
    obtain ⟨k, bc⟩ := kv
    by_cases hk : k = s <;> by_cases hkt : k = t <;>
      simp_all [bagBump, bagLookup]

/-- A `checkFile` map update seen at the envelope's own topic: a fresh
entry with count 1, or the old entry with its count incremented. -/
lemma bagLookup_insertOrBump_self (l : List (String × BagContent))
    (e : Envelope) :
    bagLookup (bagInsertOrBump l e) e.topic =
      some (match bagLookup l e.topic with
            | none => ⟨e.datatype, e.md5sum, 1⟩
            | some bc => ⟨bc.datatype, bc.md5sum, bc.count + 1⟩) := by
  unfold bagInsertOrBump
  cases h : bagLookup l e.topic with
  | none => simp [bagLookup_append, h, bagLookup]
  | some bc => simp [bagLookup_bump_self, h]

/-- A `checkFile` map update seen at any other topic: unchanged. -/
lemma bagLookup_insertOrBump_other (l : List (String × BagContent))
    (e : Envelope) (t : String) (h : t ≠ e.topic) :
    bagLookup (bagInsertOrBump l e) t = bagLookup l t := by
  unfold bagInsertOrBump
  cases hl : bagLookup l e.topic with
  | none =>
    rw [bagLookup_append]
    have h2 : e.topic ≠ t := fun hh => h hh.symm
    cases hb : bagLookup l t <;> simp [bagLookup, h2]
  | some bc => exact bagLookup_bump_other l e.topic t h

/-- Counting a topic over a cons. -/
lemma countTopic_cons (t : String) (e : Envelope) (es : List Envelope) :
    countTopic t (e :: es) = (if e.topic = t then 1 else 0) + countTopic t es := by
  by_cases h : e.topic = t <;>
    simp [countTopic, List.filter_cons, h, Nat.add_comm]

/-- The scan invariant: after folding `checkFile` over the remaining
envelopes from any intermediate map, a topic's entry is its old entry with
the new occurrences added to the count, or, for a topic first seen in the
remaining envelopes, the datatype and hash of its first occurrence with
the occurrence count. -/
lemma scanBag_lookup (envs : List Envelope) :
    ∀ (l : List (String × BagContent)) (g : Nat) (t : String),
    bagLookup (List.foldl checkFileStep (l, g) envs).1 t =
      match bagLookup l t, List.find? (fun e => e.topic == t) envs with
      | some bc, _ => some ⟨bc.datatype, bc.md5sum, bc.count + countTopic t envs⟩
      | none, some e => some ⟨e.datatype, e.md5sum, countTopic t envs⟩
      | none, none => none := by
  induction envs with
  | nil =>
    intro l g t
    cases h : bagLookup l t <;> simp [countTopic, h]
  | cons e es ih =>
    intro l g t
    rw [List.foldl_cons]
    have step : checkFileStep (l, g) e = (bagInsertOrBump l e, e.timePlayNs) := rfl
    rw [step, ih]
    by_cases ht : e.topic = t
    · subst ht
      rw [bagLookup_insertOrBump_self]
      cases h : bagLookup l e.topic with
      | none =>
        simp [List.find?_cons, countTopic_cons, h, Nat.add_comm]
      | some bc =>
        simp [List.find?_cons, countTopic_cons, h]
        omega
    · have h2 : t ≠ e.topic := fun hh => ht hh.symm
      rw [bagLookup_insertOrBump_other l e t h2]
      have hbeq : (e.topic == t) = false := by simp [ht]
      cases h : bagLookup l t <;>
        simp [List.find?_cons, countTopic_cons, ht, hbeq, h]

/-- C2: after a check-mode scan of an opened bag whose envelopes on topic
`t` all carry datatype `dt` and hash `md`, the printed per-topic report
maps `t` (when it appears in the bag) to exactly `dt`, `md` and the number
of envelopes bearing `t`, and the reported end time equals the reported
start time plus the reported length. -/
theorem check_mode_report (envs : List Envelope) (f : Nat) (t dt md : String)
    (huni : ∀ e ∈ envs, e.topic = t → e.datatype = dt ∧ e.md5sum = md)
    (hmem : t ∈ envs.map Envelope.topic) :
    bagLookup (runCheck true f envs).content t = some ⟨dt, md, countTopic t envs⟩ ∧
    (runCheck true f envs).endTimeNs =
      (runCheck true f envs).startTimeNs + (runCheck true f envs).lengthNs := by
  constructor
  · have h := scanBag_lookup envs [] 0 t
    have hex : ∃ e ∈ envs, e.topic = t := by
      simpa using hmem
    have hfind : (List.find? (fun e => e.topic == t) envs).isSome := by
      rw [List.find?_isSome]
      obtain ⟨e0, he, ht0⟩ := hex
      exact ⟨e0, he, by simp [ht0]⟩
    obtain ⟨e0, hf⟩ := Option.isSome_iff_exists.mp hfind
    have he0mem : e0 ∈ envs := List.mem_of_find?_eq_some hf
    have he0t : e0.topic = t := by
      have := List.find?_some hf
      simpa using this
    obtain ⟨hdt, hmd⟩ := huni e0 he0mem he0t
    rw [hf] at h
    simp [bagLookup] at h
    show bagLookup (scanBag envs).1 t = _
    rw [scanBag, h, hdt, hmd]
  · simp [runCheck, Nat.add_comm]

/-- Concrete three-envelope bag used to witness the check-mode report. -/
def envsEx : List Envelope :=
  [⟨"/a", "T", "m", 5⟩, ⟨"/b", "U", "m2", 7⟩, ⟨"/a", "T", "m", 9⟩]

/-- C2 (witness): on the concrete bag, topic `/a` is reported with its
type, hash and count 2, and the time identity holds. -/
theorem check_mode_report_witness :
    bagLookup (runCheck true 3 envsEx).content "/a" = some ⟨"T", "m", 2⟩ ∧
    (runCheck true 3 envsEx).endTimeNs =
      (runCheck true 3 envsEx).startTimeNs + (runCheck true 3 envsEx).lengthNs := by
  have h := check_mode_report envsEx 3 "/a" "T" "m" (by decide) (by decide)
  have hc : countTopic "/a" envsEx = 2 := by decide
  rw [hc] at h
  exact h

/-! ### Envelope dropping at the start offset (claim C4)

The recorded-log `Player` class is not part of the excerpt; only its
callers are.  Spec section 4.8 fixes its timing contract, and the model
below follows it. -/

/-- Modelled from the spec: the missing Player's
`play_time(env) = wall_start + (env.record_time - first_record_time) /
time_scale + cumulative_shift`, where `wall_start` is the base time the
caller passed to `player_.open`.  Times are rationals standing for
seconds. -/
def playTimeOf (base rec first scale shift : ℚ) : ℚ :=
  base + (rec - first) / scale + shift

/-- The drop test at the head of `RosPlay::doPublish` (rosplay.cpp line
201): return immediately when `play_time < requested_start_time_`. -/
def doPublishDrops (playTime requestedStart : ℚ) : Prop :=
  playTime < requestedStart

/-- The drop decision wired as the constructor wires it:
`requested_start_time_ = start_time_` (lines 133-134) and the base handed
to `player_.open` is `start_time_ - offset` with `offset` the `-t`
seconds (line 136, `start_time_ + Duration().fromSec(-float_time)`). -/
def rosPlayDrops (startTime offset rec first scale shift : ℚ) : Prop :=
  doPublishDrops (playTimeOf (startTime - offset) rec first scale shift) startTime

/-- The condition the claim states: the envelope's record time falls
before the requested start offset into the files. -/
def claimDrops (offset rec first : ℚ) : Prop :=
  rec - first < offset

/-- C4 (counterexample): with time scale 2 and a `-t 4` offset, an
envelope recorded 6 seconds into the files is dropped by `doPublish`
although its record time is not before the requested start offset. -/
theorem rosplay_drop_scale_counterexample :
    rosPlayDrops 100 4 6 0 2 0 ∧ ¬ claimDrops 4 6 0 := by
  unfold rosPlayDrops doPublishDrops playTimeOf claimDrops
  norm_num

/-- C4 (amended): `doPublish` drops an envelope exactly when its elapsed
record time divided by the time scale, plus the accumulated shift, is
less than the requested start offset; only for time scale 1 and zero
accumulated shift does this coincide with the record time falling before
the offset. -/
theorem rosplay_drop_iff (startTime offset rec first scale shift : ℚ) :
    rosPlayDrops startTime offset rec first scale shift ↔
      (rec - first) / scale + shift < offset := by
  unfold rosPlayDrops doPublishDrops playTimeOf
  constructor <;> intro h <;> linarith

/-! ### Stepping while paused (claim C5)

The keyboard loop of `RosPlay::doPublish` (rosplay.cpp lines 238-295) in
the paused regime.  While `paused_` is set the outer wait-loop guard is
satisfied regardless of wall time, so behaviour depends only on the
characters read from stdin: space toggles pause, `'s'` publishes the
current envelope once and returns from `doPublish` (lines 272-278,
leaving `paused_` set), EOF makes the loop sleep and poll again, and any
other character is ignored.  The model consumes the finite list of
characters the user will type; exhausting it while paused leaves the loop
polling (blocked). -/

/-- Outcome of the keyboard loop for one envelope entered while paused. -/
inductive PausedStep where
  | published (restKeys : List Char)
  | unpaused (restKeys : List Char)
  | starved
  deriving DecidableEq

/-- The keyboard loop of `doPublish` restricted to the paused regime:
first space unpauses, first `'s'` publishes-and-returns, everything else
(including EOF polls) is skipped. -/
def pausedKeyLoop : List Char → PausedStep
  | [] => .starved
  | c :: ks =>
    if c = ' ' then .unpaused ks
    else if c = 's' then .published ks
    else pausedKeyLoop ks

/-- A run of the player over its remaining envelopes starting in the
paused state: which envelopes got published, and whether the player is
still paused. -/
inductive PausedRun (E : Type) where
  | blocked (emitted : List E)
  | finished (emitted : List E) (restKeys : List Char)
  | resumed (emitted : List E) (restKeys : List Char)
  deriving DecidableEq

/-- Envelopes emitted during the run. -/
def PausedRun.emitted {E : Type} : PausedRun E → List E
  | .blocked l => l
  | .finished l _ => l
  | .resumed l _ => l

/-- Whether the `paused_` flag is still set at the end of the modelled
run (the `'s'` case never clears it; only space does). -/
def PausedRun.stillPaused {E : Type} : PausedRun E → Bool
  | .blocked _ => true
  | .finished _ _ => true
  | .resumed _ _ => false

/-- Drive the paused player over its remaining envelopes: each envelope's
`doPublish` runs the keyboard loop; `'s'` emits that envelope once and
moves to the next (still paused); space hands control back to the timed
regime (the model stops there); running out of keys leaves the loop
polling. -/
def playFromPaused {E : Type} : List Char → List E → PausedRun E
  | ks, [] => .finished [] ks
  | ks, e :: es =>
    match pausedKeyLoop ks with
    | .starved => .blocked []
    | .unpaused ks2 => .resumed [] ks2
    | .published ks2 =>
      match playFromPaused ks2 es with
      | .blocked l => .blocked (e :: l)
      | .finished l ks3 => .finished (e :: l) ks3
      | .resumed l ks3 => .resumed (e :: l) ks3

/-- C5: starting paused with at least `n` envelopes left, typing `'s'`
`n` times emits exactly the next `n` envelopes, one per press and in
order, and the player is still paused afterwards. -/
theorem paused_step_emits_once {E : Type} (envs : List E) (n : Nat)
    (h : n ≤ envs.length) :
    (playFromPaused (List.replicate n 's') envs).emitted = envs.take n ∧
    (playFromPaused (List.replicate n 's') envs).stillPaused = true := by
  induction n generalizing envs with
  | zero =>
    cases envs <;>
      simp [playFromPaused, pausedKeyLoop, PausedRun.emitted, PausedRun.stillPaused]
  | succ n ih =>
    cases envs with
    | nil => simp at h
    | cons e es =>
      have h2 : n ≤ es.length := Nat.le_of_succ_le_succ h
      have := ih es h2
      simp only [List.replicate_succ, playFromPaused, pausedKeyLoop]
      norm_num
      cases hr : playFromPaused (List.replicate n 's') es <;>
        rw [hr] at this <;>
        simp_all [PausedRun.emitted, PausedRun.stillPaused]

/-- C5 (witness): three `'s'` presses on a four-envelope bag emit exactly
the first three envelopes and leave the player paused. -/
theorem paused_step_emits_once_witness :
    (playFromPaused (List.replicate 3 's') [10, 20, 30, 40]).emitted =
      List.take 3 [10, 20, 30, 40] ∧
    (playFromPaused (List.replicate 3 's') [10, 20, 30, 40]).stillPaused = true :=
  paused_step_emits_once [10, 20, 30, 40] 3 (by decide)

/-! ### Terminal settings guard (claim C6)

The RosPlay constructor captures the stdin termios into `orig_flags_`
with `tcgetattr`, then writes a modified copy with `tcsetattr`
(rosplay.cpp lines 82-88): it clears `ICANON` in `c_lflag` and zeroes
`c_cc[VMIN]` and `c_cc[VTIME]`, touching nothing else.  The destructor
writes `orig_flags_` back unchanged (lines 154-159).  `c_lflag` is a
32-bit `tcflag_t`; all remaining termios fields are abstracted into one
`other` component. -/

/-- A termios record: the local-mode flag word, the two control
characters the player changes, and everything else. -/
structure Termios (α : Type) where
  c_lflag : Nat
  ccVmin : Nat
  ccVtime : Nat
  other : α
  deriving DecidableEq

/-- Linux `ICANON` (octal 0000002). -/
def ICANON : Nat := 2

/-- Linux `ECHO` (octal 0000010). -/
def ECHO : Nat := 8

/-- All 32 bits of a `tcflag_t`. -/
def tcflagMask : Nat := 4294967295

/-- The settings the constructor writes: `flags.c_lflag &= ~ICANON;
flags.c_cc[VMIN] = 0; flags.c_cc[VTIME] = 0;` applied to the captured
original (rosplay.cpp lines 84-87). -/
def rawModeFlags {α : Type} (t : Termios α) : Termios α :=
  { t with c_lflag := t.c_lflag &&& (tcflagMask ^^^ ICANON),
           ccVmin := 0, ccVtime := 0 }

/-- The sequence of termios records a RosPlay lifetime passes to
`tcsetattr`: the raw-mode settings at construction (line 88), and the
untouched original at destruction (line 158). -/
def rosPlayTermiosWrites {α : Type} (orig : Termios α) : List (Termios α) :=
  [rawModeFlags orig, orig]

/-- The mode the claim asserts for playback: canonical input off and echo
off. -/
def nonCanonicalNoEcho {α : Type} (t : Termios α) : Prop :=
  t.c_lflag &&& ICANON = 0 ∧ t.c_lflag &&& ECHO = 0

/-- C6 (counterexample): for a terminal whose original `c_lflag` has
`ICANON` and `ECHO` set (the usual interactive state, here lflag 10), the
settings the player installs still have `ECHO` set, so stdin is not in
no-echo mode while playing. -/
theorem rosplay_raw_mode_keeps_echo :
    ¬ nonCanonicalNoEcho (rawModeFlags (⟨10, 1, 1, 0⟩ : Termios Nat)) := by
  unfold nonCanonicalNoEcho
  decide

/-- C6 (amended): while the player runs, stdin is in non-canonical mode
with `VMIN = VTIME = 0`, the echo bit and every `c_lflag` bit other than
`ICANON` (bit 1) keep their original values, all other termios fields are
unchanged, and the final settings written at destruction are exactly the
settings captured at construction. -/
theorem rosplay_terminal_guard {α : Type} (orig : Termios α)
    (hw : orig.c_lflag < 2 ^ 32) :
    (rawModeFlags orig).c_lflag &&& ICANON = 0 ∧
    (rawModeFlags orig).ccVmin = 0 ∧
    (rawModeFlags orig).ccVtime = 0 ∧
    (rawModeFlags orig).c_lflag &&& ECHO = orig.c_lflag &&& ECHO ∧
    (∀ i, i ≠ 1 → (rawModeFlags orig).c_lflag.testBit i = orig.c_lflag.testBit i) ∧
    (rawModeFlags orig).other = orig.other ∧
    (rosPlayTermiosWrites orig).getLast? = some orig := by
  refine ⟨?_, rfl, rfl, ?_, ?_, rfl, rfl⟩
  · show orig.c_lflag &&& (tcflagMask ^^^ ICANON) &&& ICANON = 0
    rw [Nat.land_assoc]
    have : (tcflagMask ^^^ ICANON) &&& ICANON = 0 := by decide
    simp [this]
  · show orig.c_lflag &&& (tcflagMask ^^^ ICANON) &&& ECHO = orig.c_lflag &&& ECHO
    rw [Nat.land_assoc]
    have : (tcflagMask ^^^ ICANON) &&& ECHO = ECHO := by decide
    rw [this]
  · intro i hi
    show (orig.c_lflag &&& (tcflagMask ^^^ ICANON)).testBit i = orig.c_lflag.testBit i
    by_cases h32 : i < 32
    · have hall : ∀ j, j < 32 → j ≠ 1 → (tcflagMask ^^^ ICANON).testBit j = true := by
        decide
      rw [Nat.testBit_land, hall i h32 hi, Bool.and_true]
    · have hge : 32 ≤ i := Nat.le_of_not_lt h32
      have hpow : (2 : Nat) ^ 32 ≤ 2 ^ i := Nat.pow_le_pow_right (by norm_num) hge
      have h1 : orig.c_lflag.testBit i = false :=
        Nat.testBit_lt_two_pow (lt_of_lt_of_le hw hpow)
      have h2 : (tcflagMask ^^^ ICANON).testBit i = false :=
        Nat.testBit_lt_two_pow (lt_of_lt_of_le (by decide) hpow)
      rw [Nat.testBit_land, h1, h2]
      rfl

/-- C6 (witness): for the concrete original termios with lflag 10 and an
opaque remainder 37, the raw mode clears `ICANON`, keeps the echo bit,
and destruction restores the original exactly. -/
theorem rosplay_terminal_guard_witness :
    (rawModeFlags (⟨10, 1, 1, 37⟩ : Termios Nat)).c_lflag &&& ICANON = 0 ∧
    (rawModeFlags (⟨10, 1, 1, 37⟩ : Termios Nat)).c_lflag &&& ECHO = 10 &&& ECHO ∧
    (rosPlayTermiosWrites (⟨10, 1, 1, 37⟩ : Termios Nat)).getLast? =
      some ⟨10, 1, 1, 37⟩ := by
  have h := rosplay_terminal_guard (⟨10, 1, 1, 37⟩ : Termios Nat) (by decide)
  exact ⟨h.1, h.2.2.2.1, h.2.2.2.2.2.2⟩

/-! ### Service-call test fixture (claim C7)

The gtest body of `service_call_expect_b.cpp` lines 46-60: poll
`g_n->getParam("advertisers_ready", param)` until it succeeds, then call
`ros::service::call("service_adv", req, res)` with `req.str = "nothing"`,
and assert that the call returned true and that `res.str` equals `"B"`.
The parameter server is an oracle giving the result of the k-th `getParam`
attempt; the service transport is an oracle from service name and request
to an optional response (`none` is a failed call). -/

/-- Request type of `test_roscpp::TestStringString`. -/
structure TestStringStringReq where
  str : String
  deriving DecidableEq

/-- Response type of `test_roscpp::TestStringString`. -/
structure TestStringStringRes where
  str : String
  deriving DecidableEq

/-- What the fixture did: the parameter key it polled, how many failed
polls preceded the successful one, the service calls it issued, and
whether both assertions held. -/
structure SrvCallTrace where
  paramKey : String
  paramAttempts : Nat
  calls : List (String × TestStringStringReq)
  testPassed : Bool
  deriving DecidableEq

/-- The `SrvCall.callSrv` test body.  `avail k` is whether the k-th
`getParam("advertisers_ready", param)` succeeds; the loop needs some
attempt to succeed to terminate, and stops at the first success. -/
def srvCallTest (avail : Nat → Bool) (h : ∃ k, avail k = true)
    (call : String → TestStringStringReq → Option TestStringStringRes) :
    SrvCallTrace :=
  let attempts := Nat.find h
  let req : TestStringStringReq := ⟨"nothing"⟩
  let result := call "service_adv" req
  ⟨"advertisers_ready", attempts, [("service_adv", req)],
    match result with
    | some res => res.str == "B"
    | none => false⟩

/-- C7: the fixture polls exactly the parameter `advertisers_ready`,
blocking until its first retrievable attempt; it issues exactly one
service call, to `service_adv` with request string `nothing`; and it
passes exactly when the call returns a response whose string is `B`. -/
theorem srv_call_fixture (avail : Nat → Bool) (h : ∃ k, avail k = true)
    (call : String → TestStringStringReq → Option TestStringStringRes) :
    (srvCallTest avail h call).paramKey = "advertisers_ready" ∧
    avail (srvCallTest avail h call).paramAttempts = true ∧
    (∀ k, k < (srvCallTest avail h call).paramAttempts → avail k = false) ∧
    (srvCallTest avail h call).calls = [("service_adv", ⟨"nothing"⟩)] ∧
    ((srvCallTest avail h call).testPassed = true ↔
      ∃ res, call "service_adv" ⟨"nothing"⟩ = some res ∧ res.str = "B") := by
  refine ⟨rfl, ?_, ?_, rfl, ?_⟩
  · show avail (Nat.find h) = true
    exact Nat.find_spec h
  · intro k hk
    have hmin := Nat.find_min h hk
    exact Bool.eq_false_iff.mpr hmin
  · show (match call "service_adv" (⟨"nothing"⟩ : TestStringStringReq) with
          | some res => res.str == "B"
          | none => false) = true ↔ _
    cases hres : call "service_adv" (⟨"nothing"⟩ : TestStringStringReq) with
    | none => simp
    | some res => simp [beq_iff_eq]

/-- Concrete parameter oracle: `advertisers_ready` appears at the third
poll. -/
def availEx : Nat → Bool := fun k => decide (2 ≤ k)

/-- The oracle eventually succeeds. -/
theorem availExH : ∃ k, availEx k = true := ⟨2, rfl⟩

/-- Concrete service oracle: every call answers with string `B`. -/
def callEx : String → TestStringStringReq → Option TestStringStringRes :=
  fun _ _ => some ⟨"B"⟩

/-- C7 (witness): with the concrete oracles the fixture issues exactly
the `service_adv`/`nothing` call and passes. -/
theorem srv_call_fixture_witness :
    (srvCallTest availEx availExH callEx).calls = [("service_adv", ⟨"nothing"⟩)] ∧
    (srvCallTest availEx availExH callEx).testPassed = true := by
  have h := srv_call_fixture availEx availExH callEx
  exact ⟨h.2.2.2.1, h.2.2.2.2.mpr ⟨⟨"B"⟩, rfl, rfl⟩⟩

/-! ### OS detection (claim C8)

`OS::detect` of `src/tools/rosdep/os.cpp`.  The environment is an oracle
from variable name to optional value; the filesystem and subprocess
probes are an oracle record.  Exceptions thrown with `runtime_error`
become `Except.error` (messages paraphrased without punctuation the
embedding cannot carry); `fsProbes` counts the `file_exists` calls made,
so 0 means the filesystem was never consulted.  In the Ubuntu branch the
source truncates the version token with `os_ver[4] = 0`, hence
`String.take 4`; the constructor calls `detect(name, version)` on its own
members, so the by-reference `ver` parameter and the `version` member are
merged into one value threaded as `ver0`. -/

/-- Result of a successful `OS::detect`. -/
structure DetectOutcome where
  ok : Bool
  name : String
  version : String
  fsProbes : Nat
  deriving DecidableEq

/-- Filesystem and subprocess view `OS::detect` may consult:
`/etc/arch-release` existence, `/etc/issue` existence and its first two
whitespace tokens (`none` when `fscanf` cannot read two), `/usr/bin/sw_vers`
existence and the piped `sw_vers` output (`none` for a failed `popen`,
`some none` for empty output). -/
structure FsOracle where
  archRelease : Bool
  etcIssue : Bool
  issueTokens : Option (String × String)
  swVers : Bool
  swPipe : Option (Option String)
  deriving DecidableEq

/-- `OS::detect` (os.cpp lines 25-92). -/
def OS.detect (env : String → Option String) (fs : FsOracle) (ver0 : String) :
    Except String DetectOutcome :=
  match env "ROSDEP_OS_NAME" with
  | some n =>
    match env "ROSDEP_OS_VERSION" with
    | some v => .ok ⟨true, n, v, 0⟩
    | none => .ok ⟨true, n, ver0, 0⟩
  | none =>
    if fs.archRelease then .ok ⟨true, "arch", ver0, 1⟩
    else if fs.etcIssue then
      match fs.issueTokens with
      | none => .error "could not parse /etc/issue"
      | some (osName, osVer) =>
        if osName = "Ubuntu" then .ok ⟨true, "ubuntu", osVer.take 4, 2⟩
        else .error "/etc/issue was not ubuntu. need to fix rosdep."
    else if fs.swVers then
      match fs.swPipe with
      | none => .error "could not get output of sw_vers"
      | some none => .error "no response from sw_vers"
      | some (some line) => .ok ⟨true, "macports", line, 3⟩
    else .ok ⟨false, "unknown", ver0, 3⟩

/-- C8: when `ROSDEP_OS_NAME` is set, detection succeeds with that value
as the OS name, performs zero filesystem probes, and the version is the
value of `ROSDEP_OS_VERSION` when that is also set and the caller's prior
version value otherwise. -/
theorem osdep_env_override (env : String → Option String) (fs : FsOracle)
    (ver0 n : String) (h : env "ROSDEP_OS_NAME" = some n) :
    (env "ROSDEP_OS_VERSION" = none →
      OS.detect env fs ver0 = .ok ⟨true, n, ver0, 0⟩) ∧
    (∀ v, env "ROSDEP_OS_VERSION" = some v →
      OS.detect env fs ver0 = .ok ⟨true, n, v, 0⟩) := by
  constructor
  · intro hv
    simp [OS.detect, h, hv]
  · intro v hv
    simp [OS.detect, h, hv]

/-- Concrete environment with both override variables set. -/
def envEx : String → Option String := fun k =>
  if k = "ROSDEP_OS_NAME" then some "gentoo"
  else if k = "ROSDEP_OS_VERSION" then some "9.0" else none

/-- Concrete filesystem whose probes would all answer differently from
the override. -/
def fsEx : FsOracle := ⟨true, true, some ("Ubuntu", "8.04.1"), false, none⟩

/-- C8 (witness): with both variables set, detection returns the
environment name and version with zero filesystem probes. -/
theorem osdep_env_override_witness :
    OS.detect envEx fsEx "prior" = .ok ⟨true, "gentoo", "9.0", 0⟩ :=
  (osdep_env_override envEx fsEx "prior" "gentoo" (by decide)).2 "9.0" (by decide)

/-! ### `NodeHandle::param` (claim C9)

node_handle.h lines 845-857: assign from the parameter server with a
default.  `hasParam` and `getParam` are oracles: `getParamResult` is
`some v` when `getParam` succeeds storing `v`, `none` when it fails. -/

/-- `NodeHandle::param`: if `hasParam(param_name)` and
`getParam(param_name, param_val)` succeed the server value is kept,
otherwise `param_val = default_val`. -/
def NodeHandle.param {T : Type} (hasParamResult : Bool)
    (getParamResult : Option T) (defaultVal : T) : T :=
  if hasParamResult then
    match getParamResult with
    | some v => v
    | none => defaultVal
  else defaultVal

/-- C9: `param` stores the server value exactly when `hasParam` is true
and `getParam` succeeds, and stores the default in every other case (the
parameter is absent, or retrieval fails). -/
theorem node_handle_param_cases {T : Type} (hasP : Bool) (getP : Option T)
    (d : T) :
    (∀ v, hasP = true → getP = some v → NodeHandle.param hasP getP d = v) ∧
    (hasP = false → NodeHandle.param hasP getP d = d) ∧
    (getP = none → NodeHandle.param hasP getP d = d) := by
  refine ⟨?_, ?_, ?_⟩
  · intro v h1 h2
    simp [NodeHandle.param, h1, h2]
  · intro h1
    simp [NodeHandle.param, h1]
  · intro h1
    cases hasP <;> simp [NodeHandle.param, h1]

/-- C9 (witness): concrete instances of the three cases. -/
theorem node_handle_param_witness :
    NodeHandle.param true (some 7) 0 = 7 ∧
    NodeHandle.param false (some 7) 0 = 0 ∧
    NodeHandle.param true (none : Option Nat) 0 = 0 :=
  ⟨(node_handle_param_cases true (some 7) 0).1 7 rfl rfl,
   (node_handle_param_cases false (some 7) 0).2.1 rfl,
   (node_handle_param_cases true (none : Option Nat) 0).2.2 rfl⟩

/-! ### Bag time with several bags (claim C10) -/

/-- C10: a playback (non-check) invocation whose option parsing completes
(no help or unrecognised option cut it short) with `-b` processed and
more than one bag operand prints the single-bag error, opens no bag,
publishes nothing, and shuts the node down. -/
theorem rosplay_bag_time_multi_bag (args : List String) (st : PlayOpts)
    (hparse : processPlayOpts (getoptArgs playOptSpec args).1 initPlayOpts = (st, false))
    (hbt : st.bagTime = true)
    (hlen : 1 < (getoptArgs playOptSpec args).2.length) :
    (RosPlay.ctor args).errorMsg =
      some "You can only play one single bag when using bag time [-b]." ∧
    (RosPlay.ctor args).openedBags = [] ∧
    (RosPlay.ctor args).published = 0 ∧
    (RosPlay.ctor args).nodeShutdown = true := by
  have hne : (getoptArgs playOptSpec args).2.isEmpty = false := by
    cases hl : (getoptArgs playOptSpec args).2 with
    | nil => rw [hl] at hlen; simp at hlen
    | cons a as => simp
  simp [RosPlay.ctor, hparse, hne, hbt, hlen]

/-- C10 (witness): `rosplay -b 10 a.bag b.bag` is rejected with the
single-bag error, no bag opened, nothing published, node shut down. -/
theorem rosplay_bag_time_multi_bag_witness :
    (RosPlay.ctor ["-b", "10", "a.bag", "b.bag"]).errorMsg =
      some "You can only play one single bag when using bag time [-b]." ∧
    (RosPlay.ctor ["-b", "10", "a.bag", "b.bag"]).openedBags = [] ∧
    (RosPlay.ctor ["-b", "10", "a.bag", "b.bag"]).published = 0 ∧
    (RosPlay.ctor ["-b", "10", "a.bag", "b.bag"]).nodeShutdown = true :=
  rosplay_bag_time_multi_bag ["-b", "10", "a.bag", "b.bag"]
    { initPlayOpts with bagTime := true, bagTimeFreqArg := some "10" }
    (by decide) (by decide) (by decide)
